import Mathlib

/-!
Shallow embedding of `src/vs/workbench/contrib/remote/browser/remoteExplorer.ts`,
covering the `ForwardedPortsView` and `AutomaticPortForwarding` workbench
contributions. External collaborator services (tunnel model, context keys,
configuration store, view registry, activity service, status bar) appear as
explicit boolean or functional inputs; UI side effects (scanners created,
listeners registered, badges and status entries shown or disposed) appear as
counters, booleans and option fields in explicit state records.
-/

/-- Modelled from the spec: the predicate `isLocalhostOrAllInterfaces` underlying
`mapHasTunnelLocalhostOrAllInterfaces` is declared in
`remoteExplorerService.ts`, which is not part of this slice. The spec treats
"localhost" and all-interfaces ("0.0.0.0"-equivalent) bind addresses as one
equivalence class for matching purposes. -/
def isLocalhostOrAllInterfaces (host : String) : Bool :=
  host == "localhost" || host == "127.0.0.1" || host == "0.0.0.0"

/-- Modelled from the spec: two hosts match when they are equal, or when both
belong to the localhost / all-interfaces equivalence class. -/
def hostsEquivalent (a b : String) : Bool :=
  a == b || (isLocalhostOrAllInterfaces a && isLocalhostOrAllInterfaces b)

/-- Modelled from the spec: `mapHasTunnelLocalhostOrAllInterfaces` is declared in
`remoteExplorerService.ts`, which is not part of this slice. Per the spec, a
match on port plus host-equivalence (localhost and all-interfaces addresses
being equivalent) against any existing forwarded entry suppresses a new
forward request. The forwarded map is the set of (remoteHost, remotePort)
keys of the tunnel model. -/
def mapHasTunnelLocalhostOrAllInterfaces (m : List (String × Nat)) (host : String)
    (port : Nat) : Bool :=
  m.any (fun e => e.2 == port && hostsEquivalent e.1 host)

/-- The result of `remoteExplorerService.forward`: a tunnel entry, as used by
the notification continuation in `startUrlFinder`. -/
structure Tunnel where
  tunnelRemoteHost : String
  tunnelRemotePort : Nat
  localAddress : String
deriving DecidableEq

/-- Observable outcome of one run of the `onDidMatchLocalUrl` handler:
whether a forward request was issued, and whether the notification prompt
was shown. -/
structure UrlHandlerOutcome where
  forwardRequested : Bool
  notificationShown : Bool
deriving DecidableEq

/-- The `onDidMatchLocalUrl` handler registered in
`AutomaticPortForwarding.startUrlFinder` (lines 169-195): if the forwarded
map already covers the detected url, return immediately; otherwise issue the
forward request, and show the notification prompt exactly when the
asynchronous forward resolves to an entry. The forward service is an
explicit functional input. -/
def onDidMatchLocalUrlHandler (forwardedMap : List (String × Nat))
    (localUrl : String × Nat) (forward : String × Nat → Option Tunnel) :
    UrlHandlerOutcome :=
  if mapHasTunnelLocalhostOrAllInterfaces forwardedMap localUrl.1 localUrl.2 then
    { forwardRequested := false, notificationShown := false }
  else
    match forward localUrl with
    | some _ => { forwardRequested := true, notificationShown := true }
    | none => { forwardRequested := true, notificationShown := false }

/-- State of the `AutomaticPortForwarding` contribution.
`urlFinder` is whether the `this.urlFinder` reference is set;
`ctxListenerField` is whether the `this.contextServiceListener` field is set
(the field is never cleared after the constructor sets it);
`ctxListenerAlive` is whether that listener is attached and not disposed;
`liveScanners` counts `UrlFinder` instances created and not yet disposed;
`matchListeners` counts `onDidMatchLocalUrl` registrations made;
`urlFinderDisposals` counts `dispose` calls made on scanner instances. -/
structure APFState where
  urlFinder : Bool
  ctxListenerField : Bool
  ctxListenerAlive : Bool
  liveScanners : Nat
  matchListeners : Nat
  urlFinderDisposals : Nat
deriving DecidableEq

/-- `AutomaticPortForwarding.startUrlFinder` (lines 161-196): return early
when no scanner exists and the capability flag is false; otherwise dispose
the context-service listener when the field is set, then create and register
a new `UrlFinder` and its match listener, overwriting the reference. -/
def startUrlFinder (flag : Bool) (s : APFState) : APFState :=
  if !s.urlFinder && !flag then s
  else if s.ctxListenerField then
    { s with ctxListenerAlive := false, urlFinder := true,
             liveScanners := s.liveScanners + 1,
             matchListeners := s.matchListeners + 1 }
  else
    { s with urlFinder := true,
             liveScanners := s.liveScanners + 1,
             matchListeners := s.matchListeners + 1 }

/-- `AutomaticPortForwarding.stopUrlFinder` (lines 198-203): when a scanner
exists, dispose it and clear the reference; otherwise do nothing. -/
def stopUrlFinder (s : APFState) : APFState :=
  if s.urlFinder then
    { s with urlFinder := false,
             liveScanners := s.liveScanners - 1,
             urlFinderDisposals := s.urlFinderDisposals + 1 }
  else s

/-- `AutomaticPortForwarding.tryStartStopUrlFinder` (lines 153-159): read the
`remote.autoForwardPorts` setting and start or stop accordingly. The setting
and the capability flag are explicit inputs read from the environment. -/
def tryStartStopUrlFinder (setting flag : Bool) (s : APFState) : APFState :=
  if setting then startUrlFinder flag s else stopUrlFinder s

/-- The `AutomaticPortForwarding` constructor (lines 126-151): the
configuration listener is always registered; in a remote session the
context-service listener is attached and `tryStartStopUrlFinder` runs once
with the initial setting and flag values. -/
def apfConstructor (remote setting flag : Bool) : APFState :=
  if remote then
    tryStartStopUrlFinder setting flag
      { urlFinder := false, ctxListenerField := true, ctxListenerAlive := true,
        liveScanners := 0, matchListeners := 0, urlFinderDisposals := 0 }
  else
    { urlFinder := false, ctxListenerField := false, ctxListenerAlive := false,
      liveScanners := 0, matchListeners := 0, urlFinderDisposals := 0 }

/-- Events delivered to `AutomaticPortForwarding`: a configuration change
affecting the auto-forward setting, or a context-key change affecting the
`forwardedPortsViewEnabled` keys. Each carries the values the handler reads
from the environment at delivery time. -/
inductive APFEvent where
  | configChange (setting flag : Bool)
  | contextChange (setting flag : Bool)

/-- Event delivery: the configuration listener lives for the whole controller
lifetime; the context-service listener fires only while attached and not
disposed. -/
def deliver (s : APFState) : APFEvent → APFState
  | APFEvent.configChange setting flag => tryStartStopUrlFinder setting flag s
  | APFEvent.contextChange setting flag =>
      if s.ctxListenerAlive then tryStartStopUrlFinder setting flag s else s

/-- States of `AutomaticPortForwarding` reachable from some constructor run
through any sequence of delivered events. -/
inductive APFReachable : APFState → Prop where
  | init (remote setting flag : Bool) : APFReachable (apfConstructor remote setting flag)
  | step (s : APFState) (e : APFEvent) : APFReachable s → APFReachable (deliver s e)

/-- Structural invariant of `AutomaticPortForwarding`: the context-service
listener can only be alive when its field is set, and once a scanner exists
the listener has been disposed. -/
def APFInv (s : APFState) : Prop :=
  (s.ctxListenerAlive = true → s.ctxListenerField = true) ∧
  (s.urlFinder = true → s.ctxListenerAlive = false)

/-- State of the badge and status-bar part of `ForwardedPortsView`.
`badgeRef` is the `this._activityBadge` reference together with the count the
referenced badge displays; `badgeRefDisposed` is whether that referenced
badge has been disposed; `liveBadges` counts undisposed badges;
`disposeCalls` counts `dispose` calls on badge objects; `entryAccessor` is
whether the `this.entryAccessor` status-bar reference is set; `liveEntries`
counts undisposed status-bar entries. -/
structure FPVState where
  badgeRef : Option Nat
  badgeRefDisposed : Bool
  liveBadges : Nat
  disposeCalls : Nat
  entryAccessor : Bool
  liveEntries : Nat
deriving DecidableEq

/-- The initial `ForwardedPortsView` state: no badge, no status-bar entry. -/
def fpvInit : FPVState :=
  { badgeRef := none, badgeRefDisposed := false, liveBadges := 0,
    disposeCalls := 0, entryAccessor := false, liveEntries := 0 }

/-- The dispose step at the top of `updateActivityBadge` (lines 88-90): when
the `_activityBadge` field is set, call `dispose` on the referenced badge
(a second `dispose` on an already disposed badge is a no-op on the badge
population); the field itself is not cleared. -/
def disposeActivityBadge (s : FPVState) : FPVState :=
  if s.badgeRef.isSome then
    { s with badgeRefDisposed := true,
             liveBadges := s.liveBadges - (if s.badgeRefDisposed then 0 else 1),
             disposeCalls := s.disposeCalls + 1 }
  else s

/-- `ForwardedPortsView.updateActivityBadge` (lines 87-99): dispose any
previous badge, then, when the forwarded size is positive and the
view-container lookup for the tunnel view succeeds, show a new number badge
carrying the size. -/
def updateActivityBadge (size : Nat) (containerOk : Bool) (s : FPVState) : FPVState :=
  let s1 := disposeActivityBadge s
  if 0 < size then
    if containerOk then
      { s1 with badgeRef := some size, badgeRefDisposed := false,
                liveBadges := s1.liveBadges + 1 }
    else s1
  else s1

/-- `ForwardedPortsView.updateStatusBar` (lines 101-108): add the entry when
absent and the forwarded size is positive; dispose and clear it when present
and the size is zero; otherwise leave it alone. -/
def updateStatusBar (size : Nat) (s : FPVState) : FPVState :=
  if s.entryAccessor = false ∧ 0 < size then
    { s with entryAccessor := true, liveEntries := s.liveEntries + 1 }
  else if s.entryAccessor = true ∧ size = 0 then
    { s with entryAccessor := false, liveEntries := s.liveEntries - 1 }
  else s

/-- The handler run on every tunnel-model change notification
(`onForwardPort` and `onClosePort`, lines 70-77): update the activity badge,
then the status bar, both reading the current forwarded-set size. -/
def onTunnelModelChange (size : Nat) (containerOk : Bool) (s : FPVState) : FPVState :=
  updateStatusBar size (updateActivityBadge size containerOk s)

/-- The badge that is actually displayed: the referenced badge when it has
not been disposed. -/
def shownBadge (s : FPVState) : Option Nat :=
  if s.badgeRefDisposed then none else s.badgeRef

/-- Well-formedness of the `ForwardedPortsView` state: the live badge and
entry counts agree with the displayed badge and the entry reference. -/
def FPVWF (s : FPVState) : Prop :=
  s.liveBadges = (if (shownBadge s).isSome then 1 else 0) ∧
  s.liveEntries = (if s.entryAccessor then 1 else 0)

/-- State of the panel-registration part of `ForwardedPortsView`:
whether the `contextKeyListener` is attached, and how many times
`registerViews` has run for the tunnel panel. -/
structure PanelState where
  ctxKeyListener : Bool
  registrations : Nat
deriving DecidableEq

/-- `ForwardedPortsView.enableForwardedPortsView` (lines 46-67): dispose and
clear any context-key listener; in a remote session with the capability flag
true, register the tunnel panel when the viewlet container lookup succeeds;
in a remote session with the flag false, attach a context-key listener that
will re-run this function; otherwise do nothing further. -/
def enableForwardedPortsView (remote viewEnabled containerOk : Bool)
    (s : PanelState) : PanelState :=
  if remote && viewEnabled then
    if containerOk then { ctxKeyListener := false, registrations := s.registrations + 1 }
    else { ctxKeyListener := false, registrations := s.registrations }
  else if remote then { ctxKeyListener := true, registrations := s.registrations }
  else { ctxKeyListener := false, registrations := s.registrations }

/-- Delivery of a context-key change affecting the capability keys: the
handler runs only while the context-key listener is attached, and re-runs
`enableForwardedPortsView` with the flag value read at delivery time. -/
def deliverPanelCtxChange (remote flag containerOk : Bool) (s : PanelState) : PanelState :=
  if s.ctxKeyListener then enableForwardedPortsView remote flag containerOk s else s

/-- Run a sequence of context-key change events, each carrying the capability
flag value observed at that event. -/
def runPanel (remote containerOk : Bool) (s : PanelState) : List Bool → PanelState
  | [] => s
  | f :: fs => runPanel remote containerOk (deliverPanelCtxChange remote f containerOk s) fs

/-- Claim C1: for every detected local url, a forward request is issued if and
only if `mapHasTunnelLocalhostOrAllInterfaces` returns false over the current
forwarded map; when a matching entry exists the handler returns immediately,
issuing no forward request and showing no notification. -/
theorem forward_iff_not_covered (m : List (String × Nat)) (url : String × Nat)
    (fsvc : String × Nat → Option Tunnel) :
    ((onDidMatchLocalUrlHandler m url fsvc).forwardRequested = true ↔
      mapHasTunnelLocalhostOrAllInterfaces m url.1 url.2 = false) ∧
    (mapHasTunnelLocalhostOrAllInterfaces m url.1 url.2 = true →
      onDidMatchLocalUrlHandler m url fsvc =
        { forwardRequested := false, notificationShown := false }) := by
  cases h : mapHasTunnelLocalhostOrAllInterfaces m url.1 url.2 <;>
    cases hf : fsvc url <;>
      simp [onDidMatchLocalUrlHandler, h, hf]

/-- Witness for C1 at a concrete covered input: a url on the all-interfaces
host with a port already forwarded on localhost is suppressed. -/
theorem forward_iff_not_covered_witness :
    mapHasTunnelLocalhostOrAllInterfaces [("localhost", 3000)] "0.0.0.0" 3000 = true ∧
    onDidMatchLocalUrlHandler [("localhost", 3000)] ("0.0.0.0", 3000) (fun _ => none) =
      { forwardRequested := false, notificationShown := false } :=
  ⟨by decide,
   (forward_iff_not_covered [("localhost", 3000)] ("0.0.0.0", 3000) (fun _ => none)).2
     (by decide)⟩

/-- Claim C7: when the asynchronous forward resolves to no entry, no
notification is shown and no failure is surfaced; the notification prompt is
shown only when the forward returns an entry (and the url was not already
covered). -/
theorem notification_only_on_forward_entry (m : List (String × Nat))
    (url : String × Nat) (fsvc : String × Nat → Option Tunnel) :
    (fsvc url = none → (onDidMatchLocalUrlHandler m url fsvc).notificationShown = false) ∧
    ((onDidMatchLocalUrlHandler m url fsvc).notificationShown = true →
      (fsvc url).isSome = true ∧
      mapHasTunnelLocalhostOrAllInterfaces m url.1 url.2 = false) := by
  cases h : mapHasTunnelLocalhostOrAllInterfaces m url.1 url.2 <;>
    cases hf : fsvc url <;>
      simp [onDidMatchLocalUrlHandler, h, hf]

/-- Witness for C7 at a concrete input: an uncovered url whose forward
request resolves to no entry produces no notification. -/
theorem notification_only_on_forward_entry_witness :
    (onDidMatchLocalUrlHandler [] ("127.0.0.1", 8080) (fun _ => none)).notificationShown
      = false :=
  (notification_only_on_forward_entry [] ("127.0.0.1", 8080) (fun _ => none)).1 rfl

/-- Helper: `startUrlFinder` preserves the structural invariant. -/
theorem apfInv_start (fl : Bool) (s : APFState) (h : APFInv s) :
    APFInv (startUrlFinder fl s) := by
  obtain ⟨uf, cf, ca, ls, ml, ud⟩ := s
  cases uf <;> cases cf <;> cases ca <;> cases fl <;>
    simp_all [startUrlFinder, APFInv]

/-- Helper: `stopUrlFinder` preserves the structural invariant. -/
theorem apfInv_stop (s : APFState) (h : APFInv s) : APFInv (stopUrlFinder s) := by
  obtain ⟨uf, cf, ca, ls, ml, ud⟩ := s
  cases uf <;> cases cf <;> cases ca <;> simp_all [stopUrlFinder, APFInv]

/-- Helper: `tryStartStopUrlFinder` preserves the structural invariant. -/
theorem apfInv_try (st fl : Bool) (s : APFState) (h : APFInv s) :
    APFInv (tryStartStopUrlFinder st fl s) := by
  cases st
  · simpa [tryStartStopUrlFinder] using apfInv_stop s h
  · simpa [tryStartStopUrlFinder] using apfInv_start fl s h

/-- Helper: event delivery preserves the structural invariant. -/
theorem apfInv_deliver (s : APFState) (e : APFEvent) (h : APFInv s) :
    APFInv (deliver s e) := by
  cases e with
  | configChange st fl => simpa [deliver] using apfInv_try st fl s h
  | contextChange st fl =>
      simp only [deliver]
      split
      · exact apfInv_try st fl s h
      · exact h

/-- Helper: every constructor state satisfies the structural invariant. -/
theorem apfInv_init (remote setting flag : Bool) :
    APFInv (apfConstructor remote setting flag) := by
  cases remote <;> cases setting <;> cases flag <;> exact ⟨by decide, by decide⟩

/-- Helper: every reachable state satisfies the structural invariant. -/
theorem apfReachable_inv (s : APFState) (h : APFReachable s) : APFInv s := by
  induction h with
  | init remote setting flag => exact apfInv_init remote setting flag
  | step s e hs ih => exact apfInv_deliver s e ih

/-- Claim C2: the code violates the claim. Invoking `startUrlFinder` while a
`UrlFinder` already exists is not a no-op: the guard reads
`!this.urlFinder && !flag`, so an existing scanner makes it pass, and a
second scanner plus a second match listener are created, overwriting the
reference without disposing the first scanner. Evaluated at the Active state
reached by a remote constructor with setting and flag true. -/
theorem startUrlFinder_reentry_not_noop :
    (apfConstructor true true true).urlFinder = true ∧
    (apfConstructor true true true).liveScanners = 1 ∧
    (startUrlFinder true (apfConstructor true true true)).liveScanners = 2 ∧
    (startUrlFinder true (apfConstructor true true true)).matchListeners = 2 ∧
    startUrlFinder true (apfConstructor true true true) ≠ apfConstructor true true true := by
  decide

/-- Claim C3 counterexample: in the Active state, a context-key change
carrying capability flag false neither stops the scanner nor re-attaches the
capability listener, because the listener was disposed on entry to Active;
the claimed transition Active to Disabled does not happen. -/
theorem contextChange_active_counterexample :
    (apfConstructor true true true).urlFinder = true ∧
    ¬ ((deliver (apfConstructor true true true)
          (APFEvent.contextChange true false)).urlFinder = false ∨
       (deliver (apfConstructor true true true)
          (APFEvent.contextChange true false)).ctxListenerAlive = true) := by
  decide

/-- Claim C3 (amended): while the controller is Active the capability-change
listener has already been disposed (it is disposed on entry to Active and
never re-attached), so a capability-flag change event is a no-op: the state
is unchanged, the scanner keeps running, and no listener is re-attached. -/
theorem contextChange_noop_while_active (s : APFState) (h : APFReachable s)
    (hu : s.urlFinder = true) (st fl : Bool) :
    deliver s (APFEvent.contextChange st fl) = s ∧
    (deliver s (APFEvent.contextChange st fl)).urlFinder = true ∧
    (deliver s (APFEvent.contextChange st fl)).ctxListenerAlive = false := by
  have hca : s.ctxListenerAlive = false := (apfReachable_inv s h).2 hu
  refine ⟨?_, ?_, ?_⟩ <;> simp [deliver, hca, hu]

/-- Witness for C3 (amended) at the concrete Active state reached by a remote
constructor with setting and flag true. -/
theorem contextChange_noop_while_active_witness :
    deliver (apfConstructor true true true) (APFEvent.contextChange true false) =
      apfConstructor true true true ∧
    (deliver (apfConstructor true true true)
       (APFEvent.contextChange true false)).urlFinder = true ∧
    (deliver (apfConstructor true true true)
       (APFEvent.contextChange true false)).ctxListenerAlive = false :=
  contextChange_noop_while_active (apfConstructor true true true)
    (APFReachable.init true true true) (by decide) true false

/-- Claim C6: the code violates the claim. With a scanner already running,
an invocation of the start path with the capability flag false still creates
a scanner: the guard `!this.urlFinder && !flag` passes whenever a scanner
exists, regardless of the flag. Evaluated at the Active state, both by a
direct `startUrlFinder` call and through a configuration-change event whose
handler reads setting true and flag false. -/
theorem startUrlFinder_flag_false_creates_scanner :
    (apfConstructor true true true).urlFinder = true ∧
    (startUrlFinder false (apfConstructor true true true)).liveScanners =
      (apfConstructor true true true).liveScanners + 1 ∧
    (deliver (apfConstructor true true true)
       (APFEvent.configChange true false)).liveScanners = 2 := by
  decide

/-- Claim C8: stopping while already stopped is a no-op that disposes
nothing; stopping with a scanner present disposes it exactly once, clears
the reference, and leaves the listener fields and match-listener count
unchanged. -/
theorem stopUrlFinder_stop_semantics (s : APFState) :
    (s.urlFinder = false → stopUrlFinder s = s) ∧
    (s.urlFinder = true →
      (stopUrlFinder s).urlFinder = false ∧
      (stopUrlFinder s).urlFinderDisposals = s.urlFinderDisposals + 1 ∧
      (stopUrlFinder s).liveScanners = s.liveScanners - 1 ∧
      (stopUrlFinder s).ctxListenerField = s.ctxListenerField ∧
      (stopUrlFinder s).ctxListenerAlive = s.ctxListenerAlive ∧
      (stopUrlFinder s).matchListeners = s.matchListeners) := by
  obtain ⟨uf, cf, ca, ls, ml, ud⟩ := s
  cases uf <;> simp [stopUrlFinder]

/-- Witness for C8: the stopped constructor state (setting false) is left
unchanged, and stopping the Active state disposes exactly once. -/
theorem stopUrlFinder_stop_semantics_witness :
    stopUrlFinder (apfConstructor true false true) = apfConstructor true false true ∧
    (stopUrlFinder (apfConstructor true true true)).urlFinderDisposals =
      (apfConstructor true true true).urlFinderDisposals + 1 :=
  ⟨(stopUrlFinder_stop_semantics (apfConstructor true false true)).1 (by decide),
   ((stopUrlFinder_stop_semantics (apfConstructor true true true)).2 (by decide)).2.1⟩

/-- Helper: with a well-formed badge count, `updateActivityBadge` with a
successful container lookup displays the size exactly when it is positive,
keeps the live-badge count equal to the displayed-badge count, and leaves
the status-bar fields alone. -/
theorem updateActivityBadge_ok (s : FPVState) (n : Nat)
    (h : s.liveBadges = (if (shownBadge s).isSome then 1 else 0)) :
    shownBadge (updateActivityBadge n true s) = (if 0 < n then some n else none) ∧
    (updateActivityBadge n true s).liveBadges = (if 0 < n then 1 else 0) ∧
    (updateActivityBadge n true s).entryAccessor = s.entryAccessor ∧
    (updateActivityBadge n true s).liveEntries = s.liveEntries := by
  obtain ⟨br, bd, lb, dc, ea, le⟩ := s
  rcases n with _ | m <;> cases br <;> cases bd <;>
    simp_all [updateActivityBadge, disposeActivityBadge, shownBadge]

/-- Helper: `updateStatusBar` leaves the entry present exactly when the size
is positive, keeps the live-entry count well formed, and leaves the badge
fields alone. -/
theorem updateStatusBar_sync (s : FPVState) (n : Nat)
    (h : s.liveEntries = (if s.entryAccessor then 1 else 0)) :
    (updateStatusBar n s).entryAccessor = decide (0 < n) ∧
    (updateStatusBar n s).liveEntries = (if 0 < n then 1 else 0) ∧
    shownBadge (updateStatusBar n s) = shownBadge s ∧
    (updateStatusBar n s).liveBadges = s.liveBadges := by
  obtain ⟨br, bd, lb, dc, ea, le⟩ := s
  rcases n with _ | m <;> cases ea <;>
    simp_all [updateStatusBar, shownBadge]

/-- Claim C4 counterexample: from the initial well-formed state, a
notification with forwarded size 1 but a failing view-container lookup shows
no badge, although the size is positive; the claim as stated (badge shown
exactly when size is positive) is false. -/
theorem badge_missing_despite_positive_count :
    FPVWF fpvInit ∧
    shownBadge (onTunnelModelChange 1 false fpvInit) = none ∧
    (onTunnelModelChange 1 false fpvInit).entryAccessor = true := by
  refine ⟨⟨by decide, by decide⟩, by decide, by decide⟩

/-- Claim C4 (amended): after every tunnel-model change notification, when
the tunnel-view container lookup succeeds the activity badge displays the
current forwarded size exactly when it is positive (and is removed when it
is zero), the status-bar entry is present exactly when the size is positive,
and repeated notifications accumulate no duplicate badges or entries: at
most one of each is live afterwards. -/
theorem onTunnelModelChange_badge_status_sync (s : FPVState) (n : Nat)
    (h : FPVWF s) :
    shownBadge (onTunnelModelChange n true s) = (if 0 < n then some n else none) ∧
    ((onTunnelModelChange n true s).entryAccessor = true ↔ 0 < n) ∧
    (onTunnelModelChange n true s).liveBadges = (if 0 < n then 1 else 0) ∧
    (onTunnelModelChange n true s).liveEntries = (if 0 < n then 1 else 0) := by
  obtain ⟨hb, he⟩ := h
  obtain ⟨b1, b2, b3, b4⟩ := updateActivityBadge_ok s n hb
  have he2 : (updateActivityBadge n true s).liveEntries =
      (if (updateActivityBadge n true s).entryAccessor then 1 else 0) := by
    rw [b4, b3]; exact he
  obtain ⟨e1, e2, e3, e4⟩ := updateStatusBar_sync (updateActivityBadge n true s) n he2
  refine ⟨?_, ?_, ?_, ?_⟩
  · rw [onTunnelModelChange, e3, b1]
  · rw [onTunnelModelChange, e1]; simp
  · rw [onTunnelModelChange, e4, b2]
  · rw [onTunnelModelChange, e2]

/-- Witness for C4 (amended) at the initial state with forwarded size 1. -/
theorem onTunnelModelChange_badge_status_sync_witness :
    shownBadge (onTunnelModelChange 1 true fpvInit) = (if 0 < 1 then some 1 else none) ∧
    ((onTunnelModelChange 1 true fpvInit).entryAccessor = true ↔ 0 < 1) :=
  ⟨(onTunnelModelChange_badge_status_sync fpvInit 1 ⟨by decide, by decide⟩).1,
   (onTunnelModelChange_badge_status_sync fpvInit 1 ⟨by decide, by decide⟩).2.1⟩

/-- Claim C9: every invocation of `updateActivityBadge` with the badge field
set calls `dispose` on the previously shown badge before possibly showing a
new one, and with a well-formed badge count the live-badge population after
the update is again well formed and never exceeds one: repeated tunnel-model
notifications never accumulate badges. -/
theorem updateActivityBadge_single_badge (s : FPVState) (n : Nat) (c : Bool)
    (h : s.liveBadges = (if (shownBadge s).isSome then 1 else 0)) :
    (s.badgeRef.isSome = true →
      (updateActivityBadge n c s).disposeCalls = s.disposeCalls + 1) ∧
    (updateActivityBadge n c s).liveBadges =
      (if (shownBadge (updateActivityBadge n c s)).isSome then 1 else 0) ∧
    (updateActivityBadge n c s).liveBadges ≤ 1 := by
  obtain ⟨br, bd, lb, dc, ea, le⟩ := s
  rcases n with _ | m <;> cases br <;> cases bd <;> cases c <;>
    simp_all [updateActivityBadge, disposeActivityBadge, shownBadge]

/-- Witness for C9: updating away from a state holding a live badge disposes
it exactly once and leaves at most one live badge. -/
theorem updateActivityBadge_single_badge_witness :
    (updateActivityBadge 3 true (updateActivityBadge 2 true fpvInit)).disposeCalls =
      (updateActivityBadge 2 true fpvInit).disposeCalls + 1 ∧
    (updateActivityBadge 3 true (updateActivityBadge 2 true fpvInit)).liveBadges ≤ 1 :=
  ⟨(updateActivityBadge_single_badge (updateActivityBadge 2 true fpvInit) 3 true
      (by decide)).1 (by decide),
   (updateActivityBadge_single_badge (updateActivityBadge 2 true fpvInit) 3 true
      (by decide)).2.2⟩

/-- Claim C10: showing the activity badge requires the view-container lookup
to succeed: when `getViewContainerByViewId` returns nothing, no badge is
shown after the update, even though the forwarded size is positive. -/
theorem updateActivityBadge_requires_container (s : FPVState) (n : Nat) :
    shownBadge (updateActivityBadge (n + 1) false s) = none := by
  obtain ⟨br, bd, lb, dc, ea, le⟩ := s
  cases br <;> cases bd <;>
    simp [updateActivityBadge, disposeActivityBadge, shownBadge]

/-- Helper: from the waiting state (listener attached, nothing registered),
the panel machine registers the tunnel panel exactly once as soon as some
event carries the flag true, and then goes permanently quiet; the registered
state absorbs every further event. -/
theorem runPanel_waiting_registered (fs : List Bool) :
    runPanel true true { ctxKeyListener := true, registrations := 0 } fs =
      (if fs.any (fun b => b) then
        { ctxKeyListener := false, registrations := 1 }
      else { ctxKeyListener := true, registrations := 0 }) ∧
    runPanel true true { ctxKeyListener := false, registrations := 1 } fs =
      { ctxKeyListener := false, registrations := 1 } := by
  induction fs with
  | nil => exact ⟨rfl, rfl⟩
  | cons f fs ih =>
      obtain ⟨ih1, ih2⟩ := ih
      cases f <;>
        simp [runPanel, deliverPanelCtxChange, enableForwardedPortsView, ih1, ih2]

/-- Claim C5: in a remote session with the capability flag initially false,
the constructor run registers no panel and attaches the context-key
listener; across any subsequent sequence of capability-flag change events,
the panel is registered exactly once when some event carries the flag true,
and zero times otherwise, no matter how often the flag flips afterwards. -/
theorem enableForwardedPortsView_registers_once (trace : List Bool) :
    (runPanel true true
        (enableForwardedPortsView true false true
          { ctxKeyListener := false, registrations := 0 }) trace).registrations =
      (if trace.any (fun b => b) then 1 else 0) := by
  have hinit : enableForwardedPortsView true false true
      { ctxKeyListener := false, registrations := 0 } =
      { ctxKeyListener := true, registrations := 0 } := by decide
  rw [hinit, (runPanel_waiting_registered trace).1]
  cases htr : trace.any (fun b => b) <;> simp
